import Mathlib

/-!
Shallow embedding of the pico-ssd1306 OLED driver (ssd1306.c / ssd1306.h)
and verification of its specification claims.

Modelling conventions:
- C unsigned 32-bit arithmetic is modelled on `Nat` with explicit reduction
  modulo 2^32 (`u32`, `u32sub`); `int32_t` values are modelled on `Int`
  (overflow of `int32_t` intermediates is undefined behaviour in C and is
  not exercised by any theorem below).
- The display state `ssd1306_t` mirrors the C struct; `width`, `height`,
  `pages`, `address`, `rotation` are `uint8_t` fields (values < 256 in any
  reachable state), `bufsize` is `size_t`, and the malloc'd pixel buffer is
  a `List Nat` of byte values (< 256 in any reachable state).  The
  `i2c_inst_t*` handle is pure I/O plumbing and has no observable effect on
  the framebuffer, so it is not part of the state.  The one reserved lead
  byte in front of the buffer is only touched when flushing to the bus and
  never holds pixel data, so the buffer list models bytes 0..bufsize-1.
- Fallible allocation in `ssd1306_init` is modelled by an explicit
  `allocOk` flag; malloc'd memory contents are indeterminate in C and no
  theorem depends on them, so fresh buffers are modelled as zero-filled.
-/

set_option maxRecDepth 1000000

/-- 2^32, the modulus of C `uint32_t` arithmetic. -/
def U32 : Nat := 4294967296

/-- Reduce a natural number to its `uint32_t` value. -/
def u32 (n : Nat) : Nat := n % U32

/-- C `uint32_t` subtraction `a - b` (wraps on underflow). -/
def u32sub (a b : Nat) : Nat := (a % U32 + (U32 - b % U32)) % U32

/-- The display state, mirroring `ssd1306_t` from ssd1306.h (without the
`i2c_inst_t*` bus handle, which never affects the framebuffer). -/
structure ssd1306_t where
  width : Nat
  height : Nat
  pages : Nat
  address : Nat
  external_vcc : Bool
  buffer : List Nat
  bufsize : Nat
  rotation : Nat
deriving DecidableEq

/-- The rotation switch shared verbatim by `ssd1306_draw_pixel` and
`ssd1306_clear_pixel` (ssd1306.c lines 257-274 and 315-332): maps a logical
coordinate pair to the physical framebuffer coordinate pair, in `uint32_t`
arithmetic.  For rotation values above 3 the C switch leaves the outputs
uninitialized (undefined behaviour, unreachable through the API since
`ssd1306_set_rotation` rejects them); the embedding arbitrarily returns the
untransformed pair there and no theorem relies on that case. -/
def coordTransform (rot w h x y : Nat) : Nat × Nat :=
  match rot with
  | 0 => (u32 x, u32 y)
  | 1 => (u32 (u32sub (u32sub h 1) y + w / 2), u32 x)
  | 2 => (u32sub (u32sub w 1) x, u32sub (u32sub h 1) y)
  | 3 => (u32 y, u32sub (u32sub h 1) x)
  | _ => (u32 x, u32 y)

/-- `ssd1306_draw_pixel` (ssd1306.c lines 313-337): transform the
coordinate, and if it passes the bounds check, OR the pixel's bit into the
addressed buffer byte. -/
def ssd1306_draw_pixel (p : ssd1306_t) (x y : Nat) : ssd1306_t :=
  let bx := (coordTransform p.rotation p.width p.height x y).1
  let by' := (coordTransform p.rotation p.width p.height x y).2
  if bx < p.width ∧ by' < p.height then
    { p with buffer := (p.buffer.set (bx + p.width * (by' >>> 3))
        ((p.buffer.getD (bx + p.width * (by' >>> 3)) 0) ||| (1 <<< (by' &&& 7)))) }
  else p

/-- `ssd1306_clear_pixel` (ssd1306.c lines 255-279): same transform and
bounds check, but AND the bit out of the addressed byte.  The C code masks
with `~(0x1 << (buffer_y & 0x07))` and stores into a `uint8_t`, i.e. it
keeps the other 7 bits of the byte; on byte values (< 256) this is exactly
masking with `255 ^^^ mask`. -/
def ssd1306_clear_pixel (p : ssd1306_t) (x y : Nat) : ssd1306_t :=
  let bx := (coordTransform p.rotation p.width p.height x y).1
  let by' := (coordTransform p.rotation p.width p.height x y).2
  if bx < p.width ∧ by' < p.height then
    { p with buffer := (p.buffer.set (bx + p.width * (by' >>> 3))
        ((p.buffer.getD (bx + p.width * (by' >>> 3)) 0) &&& (255 ^^^ (1 <<< (by' &&& 7))))) }
  else p

/-- `ssd1306_set_rotation` (ssd1306.c lines 230-236): values above 3 are
ignored, otherwise only the rotation field is stored. -/
def ssd1306_set_rotation (p : ssd1306_t) (rotation : Nat) : ssd1306_t :=
  if rotation > 3 then p
  else { p with rotation := rotation }

/-- `ssd1306_init` (ssd1306.c lines 78-93): stores the geometry (the
`uint16_t` arguments are truncated into the struct's `uint8_t` fields),
computes `bufsize = pages * width` from the stored fields, and allocates
the buffer; on allocation failure `bufsize` is zeroed and `false` is
returned.  Allocation success is the explicit `allocOk` argument; the
bring-up command writes are pure bus I/O and do not touch the state. -/
def ssd1306_init (p : ssd1306_t) (width height address : Nat) (allocOk : Bool) :
    Bool × ssd1306_t :=
  let width := width % 65536
  let height := height % 65536
  let p := { p with
    width := width % 256
    height := height % 256
    pages := (height / 8) % 256
    address := address % 256 }
  let bufsize := p.pages * p.width
  if allocOk then
    (true, { p with bufsize := bufsize, buffer := List.replicate bufsize 0 })
  else
    (false, { p with bufsize := 0, buffer := [] })

/-- Read one framebuffer bit: bit `y % 8` of the byte at
`x + width * (y / 8)`, the layout stated in the spec's data model (bit `b`
of the byte at `(x, page)` is pixel `(x, page*8 + b)`). -/
def framePixel (p : ssd1306_t) (x y : Nat) : Bool :=
  (p.buffer.getD (x + p.width * (y / 8)) 0).testBit (y % 8)

/-- A cleared display of the given geometry and rotation (the state after
`ssd1306_init` followed by `ssd1306_clear`, which zeroes all `bufsize`
bytes). -/
def clearedDisp (w h rot : Nat) : ssd1306_t :=
  { width := w, height := h, pages := h / 8, address := 60,
    external_vcc := false, buffer := List.replicate ((h / 8) * w) 0,
    bufsize := (h / 8) * w, rotation := rot }

/-- Convert an `int32_t` value to the `uint32_t` value it becomes when
passed to a `uint32_t` parameter (reduction modulo 2^32). -/
def i32u (n : Int) : Nat := (n % 4294967296).toNat

/-- The `(uint32_t) y` cast closing `ssd1306_draw_line`'s slope branch,
applied to the exact value of `m*(i-x1)+y1` rounded toward zero (the spec
describes the slope as computed over the reals; the C code uses
single-precision floats there, and casting a negative float to `uint32_t`
is undefined behaviour, modelled arbitrarily as 0 — no theorem below
depends on the slope branch). -/
def castTruncU32 (q : Int) : Nat := if q < 0 then 0 else q.toNat % U32

/-- `ssd1306_draw_line` (ssd1306.c lines 348-368), including the broken
`swap` helper (lines 25-29): `swap(&a,&b)` copies the *pointer* `a` into
`t`, so after `*a=*b; *b=*t;` both variables hold the old value of `b`.
Hence the endpoint normalization assigns `x1 := x2, y1 := y2` (leaving
`x2, y2` unchanged), and the vertical-case `swap(&y1,&y2)` assigns
`y1 := y2`.  The slope branch iterates the columns `x1..x2` drawing one
pixel per column at the truncated slope value. -/
def ssd1306_draw_line (p : ssd1306_t) (x1 y1 x2 y2 : Int) : ssd1306_t :=
  let n1 := if x1 > x2 then (x2, y2) else (x1, y1)
  let x1 := n1.1
  let y1 := n1.2
  if x1 = x2 then
    let y1 := if y1 > y2 then y2 else y1
    (List.range (y2 - y1 + 1).toNat).foldl
      (fun q k => ssd1306_draw_pixel q (i32u x1) (i32u (y1 + (k : Int)))) p
  else
    (List.range (x2 - x1 + 1).toNat).foldl
      (fun q k =>
        let yv := Int.tdiv ((y2 - y1) * (k : Int) + y1 * (x2 - x1)) (x2 - x1)
        ssd1306_draw_pixel q (i32u (x1 + (k : Int))) (castTruncU32 yv)) p

/-- `ssd1306_draw_square` (ssd1306.c lines 394-398): fill the
`width × height` block anchored at `(x, y)` pixel by pixel. -/
def ssd1306_draw_square (p : ssd1306_t) (x y width height : Nat) : ssd1306_t :=
  (List.range width).foldl (fun q i =>
    (List.range height).foldl (fun q2 j =>
      ssd1306_draw_pixel q2 (u32 (x + i)) (u32 (y + j))) q) p

/-- `ssd1306_draw_circle` (ssd1306.c lines 445-456): for each offset pair
`(i, j)` in `[0,r) × [0,r)` with `i*i + j*j <= r*r` (all in `uint32_t`
arithmetic), draw the four quadrant-mirrored points, where `x - i` and
`y - j` are `uint32_t` subtractions that wrap on underflow. -/
def ssd1306_draw_circle (p : ssd1306_t) (x y r : Nat) : ssd1306_t :=
  let x := u32 x
  let y := u32 y
  let r := u32 r
  (List.range r).foldl (fun q i =>
    (List.range r).foldl (fun q2 j =>
      if u32 (i * i + j * j) ≤ u32 (r * r) then
        ssd1306_draw_pixel (ssd1306_draw_pixel (ssd1306_draw_pixel (ssd1306_draw_pixel q2
          (u32 (x + i)) (u32 (y + j)))
          (u32 (x + i)) (u32sub y j))
          (u32sub x i) (u32 (y + j)))
          (u32sub x i) (u32sub y j)
      else q2) q) p

/-- `ssd1306_clear_circle` (ssd1306.c lines 424-435): same traversal as
`ssd1306_draw_circle`, clearing instead of drawing. -/
def ssd1306_clear_circle (p : ssd1306_t) (x y r : Nat) : ssd1306_t :=
  let x := u32 x
  let y := u32 y
  let r := u32 r
  (List.range r).foldl (fun q i =>
    (List.range r).foldl (fun q2 j =>
      if u32 (i * i + j * j) ≤ u32 (r * r) then
        ssd1306_clear_pixel (ssd1306_clear_pixel (ssd1306_clear_pixel (ssd1306_clear_pixel q2
          (u32 (x + i)) (u32 (y + j)))
          (u32 (x + i)) (u32sub y j))
          (u32sub x i) (u32 (y + j)))
          (u32sub x i) (u32sub y j)
      else q2) q) p

/-- The loop guard of `ssd1306_draw_circle` / `ssd1306_clear_circle`: the
offset pairs `(i, j)` for which the loop body emits its four mirrored
pixel calls. -/
def circleEmits (r i j : Nat) : Prop :=
  i < u32 r ∧ j < u32 r ∧ u32 (i * i + j * j) ≤ u32 (r * r)

instance circleEmitsDec (r i j : Nat) : Decidable (circleEmits r i j) :=
  inferInstanceAs (Decidable (i < u32 r ∧ j < u32 r ∧ u32 (i * i + j * j) ≤ u32 (r * r)))

/-- `ssd1306_draw_char_with_font` (ssd1306.c lines 468-486).  The font is
modelled as the byte stream it is in C (`const uint8_t *`, a map from
offsets to byte values; entries are < 256 for a real font, which no
theorem below needs).  Characters outside `[font[3], font[4]]` are
rejected; otherwise each set glyph bit becomes a `scale × scale` filled
square. -/
def ssd1306_draw_char_with_font (p : ssd1306_t) (x y scale : Nat)
    (font : Nat → Nat) (c : Nat) : ssd1306_t :=
  if c < font 3 ∨ font 4 < c then p
  else
    let parts_per_line := (font 0 >>> 3) + (if font 0 &&& 7 > 0 then 1 else 0)
    (List.range (font 1)).foldl (fun q w =>
      (List.range parts_per_line).foldl (fun q2 lp =>
        let line := font (u32 ((c - font 3) * font 1 * parts_per_line
          + w * parts_per_line + 5 + lp))
        (List.range 8).foldl (fun q3 j =>
          if (line >>> j) &&& 1 = 1 then
            ssd1306_draw_square q3 (u32 (x + w * scale))
              (u32 (y + ((lp <<< 3) + j) * scale)) scale scale
          else q3) q2) q) p

/-- `ssd1306_draw_string_with_font` (ssd1306.c lines 498-502): draw each
character of the string (a list of character codes), advancing the cursor
`x_n` by `(font[1] + font[2]) * scale` per character; the advance happens
in the loop header, whether or not the character was in range and drawn.
The cursor is an `int32_t` in C, initialized from and passed back to
`uint32_t`, so modulo 2^32 it carries exactly the value modelled here. -/
def ssd1306_draw_string_with_font (p : ssd1306_t) (x y scale : Nat)
    (font : Nat → Nat) : List Nat → ssd1306_t
  | [] => p
  | c :: s =>
      ssd1306_draw_string_with_font (ssd1306_draw_char_with_font p (u32 x) y scale font c)
        (u32 (x + (font 1 + font 2) * scale)) y scale font s

/-- The spec's description of string rendering, written positionally:
character number `n` of `s` is drawn at horizontal position
`x + n * ((font[1] + font[2]) * scale)` (as a `uint32_t`). -/
def drawStringByIndex (p : ssd1306_t) (x y scale : Nat)
    (font : Nat → Nat) (s : List Nat) : ssd1306_t :=
  (List.range s.length).foldl (fun q n =>
    ssd1306_draw_char_with_font q (u32 (x + n * ((font 1 + font 2) * scale)))
      y scale font (s.getD n 0)) p

/-- `ssd1306_bmp_get_val` (ssd1306.c lines 538-550): little-endian read of
1, 2 or 4 bytes from the image byte stream (the data pointer is modelled
as the map from offsets to byte values; reads mask to a byte as
`uint8_t` storage does; other sizes are `__builtin_unreachable()` in C and
modelled arbitrarily as 0, never invoked). -/
def ssd1306_bmp_get_val (data : Nat → Nat) (offset : Nat) (size : Nat) : Nat :=
  match size with
  | 1 => data offset % 256
  | 2 => data offset % 256 ||| (data (offset + 1) % 256 <<< 8)
  | 4 => data offset % 256 ||| (data (offset + 1) % 256 <<< 8)
      ||| (data (offset + 2) % 256 <<< 16) ||| (data (offset + 3) % 256 <<< 24)
  | _ => 0

/-- `ssd1306_bmp_show_image_with_offset` (ssd1306.c lines 561-604): reject
(returning the state unchanged, there is no error signal) inputs smaller
than the 54-byte header, with bit depth other than 1, or with nonzero
compression.  Otherwise resolve the foreground palette index (the entry
that is pure black, defaulting to 0), compute the 4-byte-aligned row
stride, and blit rows bottom-to-top for positive height (`y` from
`biHeight-1` down to 0) or top-to-bottom for negative height, advancing
the source row pointer by one stride per row either way. -/
def ssd1306_bmp_show_image_with_offset (p : ssd1306_t) (data : Nat → Nat)
    (size : Int) (x_offset y_offset : Nat) : ssd1306_t :=
  if size < 54 then p else
  let bfOffBits := ssd1306_bmp_get_val data 10 4
  let biSize := ssd1306_bmp_get_val data 14 4
  let biWidth := ssd1306_bmp_get_val data 18 4
  let biHeightRaw := ssd1306_bmp_get_val data 22 4
  let biHeight : Int :=
    if biHeightRaw < 2147483648 then (biHeightRaw : Int) else (biHeightRaw : Int) - 4294967296
  let biBitCount := ssd1306_bmp_get_val data 28 2
  let biCompression := ssd1306_bmp_get_val data 30 4
  if biBitCount ≠ 1 then p else
  if biCompression ≠ 0 then p else
  let table_start := 14 + biSize
  let color_val :=
    if (data table_start % 256 <<< 16) ||| (data (table_start + 1) % 256 <<< 8)
        ||| (data (table_start + 2) % 256) = 0 then 0
    else if (data (table_start + 4) % 256 <<< 16) ||| (data (table_start + 5) % 256 <<< 8)
        ||| (data (table_start + 6) % 256) = 0 then 1
    else 0
  let bpl0 := biWidth / 8 + (if biWidth &&& 7 ≠ 0 then 1 else 0)
  let bytes_per_line := if bpl0 &&& 3 ≠ 0 then (bpl0 ^^^ (bpl0 &&& 3)) + 4 else bpl0
  let rowCount : Nat := if 0 < biHeight then biHeightRaw else (-biHeight).toNat
  (List.range rowCount).foldl (fun q ri =>
    let yRow : Nat := if 0 < biHeight then biHeightRaw - 1 - ri else ri
    (List.range biWidth).foldl (fun q2 xCol =>
      if ((data (bfOffBits + ri * bytes_per_line + (xCol >>> 3)) % 256)
            >>> (7 - (xCol &&& 7))) &&& 1 = color_val then
        ssd1306_draw_pixel q2 (u32 (x_offset + xCol)) (u32 (y_offset + yRow))
      else q2) q) p

/-- An 8x8 one-page display whose framebuffer bytes are all 0xFF (every
pixel set). -/
def fullDisp : ssd1306_t :=
  { width := 8, height := 8, pages := 1, address := 60,
    external_vcc := false, buffer := List.replicate 8 255,
    bufsize := 8, rotation := 0 }

lemma list_set_getD_self (l : List Nat) (i : Nat) : l.set i (l.getD i 0) = l := by
  induction l generalizing i with
  | nil => rfl
  | cons a t ih =>
    cases i with
    | zero => rfl
    | succ n =>
      show a :: t.set n ((a :: t).getD (n + 1) 0) = a :: t
      rw [List.getD_cons_succ, ih]

lemma byte_or_mask_and_compl :
    ∀ b < 256, ∀ k < 8, b &&& (1 <<< k) = 0 →
      (b ||| (1 <<< k)) &&& (255 ^^^ (1 <<< k)) = b := by decide

lemma pixel_call_rejected (p : ssd1306_t) (x y : Nat)
    (hg : ¬((coordTransform p.rotation p.width p.height x y).1 < p.width ∧
        (coordTransform p.rotation p.width p.height x y).2 < p.height)) :
    ssd1306_draw_pixel p x y = p ∧ ssd1306_clear_pixel p x y = p := by
  constructor
  · unfold ssd1306_draw_pixel
    rw [if_neg hg]
  · unfold ssd1306_clear_pixel
    rw [if_neg hg]

lemma u32_mod_add (a b : Nat) : u32 (u32 a + b) = u32 (a + b) := by
  simp only [u32]
  exact Nat.mod_add_mod a U32 b

/-- C1: the claim that `ssd1306_draw_line` always sets both endpoints
fails whenever `x1 > x2`: the `swap` helper is broken (it saves the
pointer, not the value, so both endpoints become the second one) and the
line from (1,0) to (0,0) draws only the pixel (0,0), never (1,0), on a
cleared 128x64 display with rotation 0 where both endpoints are in
range. -/
theorem c1_line_endpoints_code_bug :
    framePixel (ssd1306_draw_line (clearedDisp 128 64 0) 1 0 0 0) 0 0 = true ∧
    framePixel (ssd1306_draw_line (clearedDisp 128 64 0) 1 0 0 0) 1 0 = false :=
  ⟨by decide, by decide⟩

/-- C2: the claimed endpoint normalization and the exchange symmetry fail
because `swap` is broken: drawing the vertical line from (0,5) to (0,0)
sets only (0,0) (the `swap(&y1,&y2)` overwrites `y1` with `y2`, so the
claimed run from min(y1,y2) to max(y1,y2) collapses), and exchanging the
endpoints of a line changes the set of pixels drawn. -/
theorem c2_line_swap_code_bug :
    framePixel (ssd1306_draw_line (clearedDisp 128 64 0) 0 5 0 0) 0 0 = true ∧
    framePixel (ssd1306_draw_line (clearedDisp 128 64 0) 0 5 0 0) 0 5 = false ∧
    ssd1306_draw_line (clearedDisp 128 64 0) 0 5 0 0 ≠
      ssd1306_draw_line (clearedDisp 128 64 0) 0 0 0 5 :=
  ⟨by decide, by decide, by decide⟩

/-- C3 counterexample: after `draw_circle(20,20,5)` on a cleared 128x64
display with rotation 0, the pixel at (20,15) (y - r) is NOT set: the
loops run `i, j` over `[0, r)`, so the offset `j = r = 5` claimed by the
spec's boundary reading is never reached. -/
theorem c3_circle_top_counterexample :
    framePixel (ssd1306_draw_circle (clearedDisp 128 64 0) 20 20 5) 20 15 = false := by
  decide

/-- C3 amended: after `draw_circle(20,20,5)` on a cleared 128x64 display
with rotation 0, the topmost set pixel on the center column is
(20,16) = (20, y-(r-1)), and both (20,15) and (20,14) are unset. -/
theorem c3_circle_top_amended :
    framePixel (ssd1306_draw_circle (clearedDisp 128 64 0) 20 20 5) 20 16 = true ∧
    framePixel (ssd1306_draw_circle (clearedDisp 128 64 0) 20 20 5) 20 15 = false ∧
    framePixel (ssd1306_draw_circle (clearedDisp 128 64 0) 20 20 5) 20 14 = false :=
  ⟨by decide, by decide, by decide⟩

/-- C4 counterexample: the draw/clear round-trip does NOT restore every
buffer state: on a display whose target byte is 0xFF (pixel already set),
`draw_pixel` is a no-op and `clear_pixel` then clears the bit, so the
framebuffer differs from its prior state. -/
theorem c4_roundtrip_counterexample :
    ssd1306_clear_pixel (ssd1306_draw_pixel fullDisp 0 0) 0 0 ≠ fullDisp := by
  decide

/-- C4 amended: for every display state with byte-valued buffer contents,
every rotation in {0,1,2,3} and every coordinate whose transformed
position passes the bounds check, if the addressed bit is CLEAR
beforehand then `draw_pixel` followed by `clear_pixel` at the same
coordinates restores the framebuffer exactly. -/
theorem c4_roundtrip_amended (p : ssd1306_t) (x y : Nat)
    (hbytes : ∀ b ∈ p.buffer, b < 256) (hrot : p.rotation ≤ 3)
    (hbx : (coordTransform p.rotation p.width p.height x y).1 < p.width)
    (hby : (coordTransform p.rotation p.width p.height x y).2 < p.height)
    (hbit : (p.buffer.getD ((coordTransform p.rotation p.width p.height x y).1
        + p.width * ((coordTransform p.rotation p.width p.height x y).2 >>> 3)) 0)
        &&& (1 <<< ((coordTransform p.rotation p.width p.height x y).2 &&& 7)) = 0) :
    ssd1306_clear_pixel (ssd1306_draw_pixel p x y) x y = p := by
  obtain ⟨w, h, pg, ad, ev, buf, bs, rot⟩ := p
  dsimp only at hbytes hbx hby hbit ⊢
  unfold ssd1306_draw_pixel
  dsimp only
  rw [if_pos ⟨hbx, hby⟩]
  unfold ssd1306_clear_pixel
  dsimp only
  rw [if_pos ⟨hbx, hby⟩]
  congr 1
  rw [List.set_set]
  by_cases hlen : (coordTransform rot w h x y).1
      + w * ((coordTransform rot w h x y).2 >>> 3) < buf.length
  · have hset : (buf.set ((coordTransform rot w h x y).1
        + w * ((coordTransform rot w h x y).2 >>> 3))
        (buf.getD ((coordTransform rot w h x y).1
          + w * ((coordTransform rot w h x y).2 >>> 3)) 0
          ||| 1 <<< ((coordTransform rot w h x y).2 &&& 7))).getD
        ((coordTransform rot w h x y).1
          + w * ((coordTransform rot w h x y).2 >>> 3)) 0
        = buf.getD ((coordTransform rot w h x y).1
          + w * ((coordTransform rot w h x y).2 >>> 3)) 0
          ||| 1 <<< ((coordTransform rot w h x y).2 &&& 7) := by
      rw [List.getD_eq_getElem _ 0 (by simpa using hlen)]
      exact List.getElem_set_self (by simpa using hlen)
    rw [hset]
    have hbval : buf.getD ((coordTransform rot w h x y).1
        + w * ((coordTransform rot w h x y).2 >>> 3)) 0 < 256 := by
      rw [List.getD_eq_getElem _ 0 hlen]
      exact hbytes _ (List.getElem_mem hlen)
    have hk : (coordTransform rot w h x y).2 &&& 7 < 8 :=
      Nat.lt_succ_of_le (Nat.and_le_right)
    rw [byte_or_mask_and_compl _ hbval _ hk hbit]
    exact list_set_getD_self buf _
  · rw [List.set_eq_of_length_le (Nat.le_of_not_lt hlen)]

/-- Witness for the amended C4 on a cleared 128x64 display with rotation
0 at (3, 5). -/
theorem c4_roundtrip_amended_witness :
    ssd1306_clear_pixel (ssd1306_draw_pixel (clearedDisp 128 64 0) 3 5) 3 5 =
      clearedDisp 128 64 0 :=
  c4_roundtrip_amended (clearedDisp 128 64 0) 3 5
    (fun b hb => by rw [List.eq_of_mem_replicate hb]; decide)
    (by decide) (by decide) (by decide) (by decide)

/-- C5 counterexample: (width=256, height=8) is a valid pair in the
spec's sense (both positive, height a multiple of 8), yet after a
successful init the stored `uint8_t` width truncates 256 to 0 and
`bufsize` is 0, not `(height/8) * width = 256`. -/
theorem c5_bufsize_counterexample :
    (0 : Nat) < 256 ∧ (8 : Nat) % 8 = 0 ∧
    (ssd1306_init (clearedDisp 128 64 0) 256 8 60 true).1 = true ∧
    (ssd1306_init (clearedDisp 128 64 0) 256 8 60 true).2.bufsize ≠ (8 / 8) * 256 := by
  decide

/-- C5 amended: for every valid (width, height) pair that fits the
struct's `uint8_t` fields (0 < width <= 255, 0 < height <= 2040, height a
multiple of 8), after a successful `ssd1306_init` the display's `bufsize`
equals `pages * width` with `pages = height / 8`. -/
theorem c5_bufsize_amended (p : ssd1306_t) (w h addr : Nat) (ok : Bool)
    (hw0 : 0 < w) (hw : w ≤ 255) (hh0 : 0 < h) (hh : h ≤ 2040) (h8 : h % 8 = 0)
    (hsucc : (ssd1306_init p w h addr ok).1 = true) :
    (ssd1306_init p w h addr ok).2.bufsize = (h / 8) * w := by
  cases ok with
  | false => simp [ssd1306_init] at hsucc
  | true =>
    have hv : (ssd1306_init p w h addr true).2.bufsize
        = h % 65536 / 8 % 256 * (w % 65536 % 256) := rfl
    have hw' : w % 65536 % 256 = w := by omega
    have hh' : h % 65536 / 8 % 256 = h / 8 := by omega
    rw [hv, hw', hh']

/-- Witness for the amended C5 at the standard 128x64 geometry. -/
theorem c5_bufsize_amended_witness :
    (ssd1306_init (clearedDisp 128 64 0) 128 64 60 true).2.bufsize = (64 / 8) * 128 :=
  c5_bufsize_amended (clearedDisp 128 64 0) 128 64 60 true (by decide) (by decide)
    (by decide) (by decide) (by decide) (by decide)

/-- C6 counterexample: on a 128x32 display with rotation 1, the circle
`draw_circle(x=5, y=0, r=2)` emits the mirrored point `(x+i, y-j)` for
`(i,j) = (1,1)`; `y - j` underflows (the mirror falls above the origin),
yet the wrapped coordinate is ACCEPTED by the bounds check (the rotation-1
transform maps it back to column 96 < 128) and a framebuffer byte is
modified, contradicting the claim that every underflowed mirror is
rejected. -/
theorem c6_underflow_counterexample :
    circleEmits 2 1 1 ∧ (0 : Nat) < 1 ∧
    ssd1306_draw_pixel (clearedDisp 128 32 1) (u32 (5 + 1)) (u32sub 0 1) ≠
      clearedDisp 128 32 1 := by
  decide

/-- C6 amended: a quadrant-mirrored circle point whose unsigned
subtraction `x - i` or `y - j` underflows modifies no framebuffer byte,
provided the underflow distance is at most 2^32 - 512 (for enormous radii
the wrapped value can reenter range), and provided, for a `y - j`
underflow, that the display satisfies `width <= 2 * height` (on wider
displays such as 128x32 the rotation-1 transform maps small `y`
underflows back into range, as the counterexample shows). -/
theorem c6_underflow_amended (p : ssd1306_t) (x y i j r a : Nat)
    (hw : p.width ≤ 255) (hh : p.height ≤ 255) (hrot : p.rotation ≤ 3)
    (hemit : circleEmits r i j) (hx32 : x < 4294967296) (hy32 : y < 4294967296) :
    (x < i → i - x ≤ 4294967296 - 512 →
        ssd1306_draw_pixel p (u32sub x i) a = p ∧
        ssd1306_clear_pixel p (u32sub x i) a = p) ∧
    (y < j → j - y ≤ 4294967296 - 512 → p.width ≤ 2 * p.height →
        ssd1306_draw_pixel p a (u32sub y j) = p ∧
        ssd1306_clear_pixel p a (u32sub y j) = p) := by
  obtain ⟨hir, hjr, -⟩ := hemit
  have hi32 : i < 4294967296 := lt_of_lt_of_le hir (Nat.le_of_lt_succ
    (Nat.lt_succ_of_lt (Nat.mod_lt r (by decide))))
  have hj32 : j < 4294967296 := lt_of_lt_of_le hjr (Nat.le_of_lt_succ
    (Nat.lt_succ_of_lt (Nat.mod_lt r (by decide))))
  constructor
  · intro hxi hk
    apply pixel_call_rejected
    have h4 : p.rotation = 0 ∨ p.rotation = 1 ∨ p.rotation = 2 ∨ p.rotation = 3 := by
      omega
    rcases h4 with h | h | h | h <;>
      rw [h] <;> simp only [coordTransform, u32, u32sub, U32] <;> omega
  · intro hyj hk hwh
    apply pixel_call_rejected
    have h4 : p.rotation = 0 ∨ p.rotation = 1 ∨ p.rotation = 2 ∨ p.rotation = 3 := by
      omega
    rcases h4 with h | h | h | h <;>
      rw [h] <;> simp only [coordTransform, u32, u32sub, U32] <;> omega

/-- Witness for the amended C6: on a cleared 128x64 display with rotation
0, the circle `(x,y,r) = (0,0,2)` emits offsets `(i,j) = (1,1)`, both
mirrors underflow by 1, and neither the draw nor the clear call changes
the state. -/
theorem c6_underflow_amended_witness :
    (ssd1306_draw_pixel (clearedDisp 128 64 0) (u32sub 0 1) 0 = clearedDisp 128 64 0 ∧
      ssd1306_clear_pixel (clearedDisp 128 64 0) (u32sub 0 1) 0 = clearedDisp 128 64 0) ∧
    (ssd1306_draw_pixel (clearedDisp 128 64 0) 0 (u32sub 0 1) = clearedDisp 128 64 0 ∧
      ssd1306_clear_pixel (clearedDisp 128 64 0) 0 (u32sub 0 1) = clearedDisp 128 64 0) :=
  ⟨(c6_underflow_amended (clearedDisp 128 64 0) 0 0 1 1 2 0 (by decide) (by decide)
      (by decide) (by decide) (by decide) (by decide)).1 (by decide) (by decide),
   (c6_underflow_amended (clearedDisp 128 64 0) 0 0 1 1 2 0 (by decide) (by decide)
      (by decide) (by decide) (by decide) (by decide)).2 (by decide) (by decide) (by decide)⟩

/-- C7: `ssd1306_draw_string_with_font` draws character number `n` of the
string at horizontal position `x + n * ((font[1] + font[2]) * scale)`
(that is, `x + n * (glyph_width + spacing) * scale`, in the `uint32_t`
arithmetic the cursor lives in): the per-character advance is applied in
the loop header whether or not the character was in range and drawn. -/
theorem c7_string_advance (p : ssd1306_t) (x y scale : Nat) (font : Nat → Nat)
    (s : List Nat) :
    ssd1306_draw_string_with_font p x y scale font s =
      drawStringByIndex p x y scale font s := by
  induction s generalizing p x with
  | nil => rfl
  | cons c s ih =>
    rw [ssd1306_draw_string_with_font, ih]
    unfold drawStringByIndex
    rw [List.length_cons, List.range_succ_eq_map, List.foldl_cons, List.foldl_map,
      List.getD_cons_zero, Nat.zero_mul, Nat.add_zero]
    apply List.foldl_ext
    intro q n _
    rw [List.getD_cons_succ, u32_mod_add]
    have harg : x + (font 1 + font 2) * scale + n * ((font 1 + font 2) * scale)
        = x + Nat.succ n * ((font 1 + font 2) * scale) := by
      rw [Nat.succ_mul]
      ring
    rw [harg]

/-- C8: any bitmap input that is smaller than the 54-byte header, or
whose bits-per-pixel field is not 1, or whose compression field is not 0,
draws nothing: the call returns the display state unchanged (and the C
function is void, so no error is signalled). -/
theorem c8_bmp_reject (p : ssd1306_t) (data : Nat → Nat) (size : Int)
    (x_offset y_offset : Nat)
    (h : size < 54 ∨ ssd1306_bmp_get_val data 28 2 ≠ 1 ∨
      ssd1306_bmp_get_val data 30 4 ≠ 0) :
    ssd1306_bmp_show_image_with_offset p data size x_offset y_offset = p := by
  unfold ssd1306_bmp_show_image_with_offset
  dsimp only
  rcases h with h | h | h
  · rw [if_pos h]
  · by_cases h1 : size < 54
    · rw [if_pos h1]
    · rw [if_neg h1, if_pos h]
  · by_cases h1 : size < 54
    · rw [if_pos h1]
    · by_cases h2 : ssd1306_bmp_get_val data 28 2 ≠ 1
      · rw [if_neg h1, if_pos h2]
      · rw [if_neg h1, if_neg h2, if_pos h]

/-- Witness for C8: a 10-byte input is rejected and the display is
unchanged. -/
theorem c8_bmp_reject_witness :
    ssd1306_bmp_show_image_with_offset (clearedDisp 128 64 0) (fun _ => 0) 10 0 0 =
      clearedDisp 128 64 0 :=
  c8_bmp_reject (clearedDisp 128 64 0) (fun _ => 0) 10 0 0 (Or.inl (by decide))

/-- C9: `ssd1306_set_rotation` ignores every `uint8_t` value above 3,
leaving the whole state unchanged, and stores any value in {0,1,2,3} in
the rotation field, changing nothing else. -/
theorem c9_set_rotation (p : ssd1306_t) (r : Nat) (hr : r ≤ 255) :
    (3 < r → ssd1306_set_rotation p r = p) ∧
    (r ≤ 3 → ssd1306_set_rotation p r = { p with rotation := r }) := by
  constructor
  · intro h
    unfold ssd1306_set_rotation
    rw [if_pos h]
  · intro h
    unfold ssd1306_set_rotation
    rw [if_neg (by omega)]

/-- Witness for C9 at the values 200 (ignored) and 2 (stored). -/
theorem c9_set_rotation_witness :
    ssd1306_set_rotation (clearedDisp 128 64 0) 200 = clearedDisp 128 64 0 ∧
    ssd1306_set_rotation (clearedDisp 128 64 0) 2 =
      { clearedDisp 128 64 0 with rotation := 2 } :=
  ⟨(c9_set_rotation (clearedDisp 128 64 0) 200 (by decide)).1 (by decide),
   (c9_set_rotation (clearedDisp 128 64 0) 2 (by decide)).2 (by decide)⟩

/-- C10: on any display satisfying the data model's invariants
(`height` a multiple of 8, `pages = height / 8`, `bufsize = pages * width`)
and any rotation in {0,1,2,3}, whenever the bounds check of
`draw_pixel`/`clear_pixel` passes, the accessed byte index
`buffer_x + width * (buffer_y >> 3)` is strictly below `bufsize`. -/
theorem c10_pixel_index_in_bounds (p : ssd1306_t) (x y : Nat)
    (h8 : p.height % 8 = 0) (hpg : p.pages = p.height / 8)
    (hbs : p.bufsize = p.pages * p.width) (hrot : p.rotation ≤ 3)
    (hbx : (coordTransform p.rotation p.width p.height x y).1 < p.width)
    (hby : (coordTransform p.rotation p.width p.height x y).2 < p.height) :
    (coordTransform p.rotation p.width p.height x y).1
      + p.width * ((coordTransform p.rotation p.width p.height x y).2 >>> 3)
      < p.bufsize := by
  have h3 : (coordTransform p.rotation p.width p.height x y).2 >>> 3
      = (coordTransform p.rotation p.width p.height x y).2 / 8 := by
    rw [Nat.shiftRight_eq_div_pow]
  have hdvd : 8 ∣ p.height := Nat.dvd_of_mod_eq_zero h8
  have hq : (coordTransform p.rotation p.width p.height x y).2 / 8 < p.height / 8 :=
    Nat.div_lt_div_of_lt_of_dvd hdvd hby
  have hle : p.width * ((coordTransform p.rotation p.width p.height x y).2 / 8 + 1)
      ≤ p.width * (p.height / 8) := Nat.mul_le_mul (Nat.le_refl p.width) hq
  rw [Nat.mul_succ] at hle
  have hc : p.width * (p.height / 8) = p.height / 8 * p.width := Nat.mul_comm _ _
  rw [hpg] at hbs
  rw [h3]
  omega

/-- Witness for C10 on a 128x64 display with rotation 0 at (5, 9). -/
theorem c10_pixel_index_in_bounds_witness :
    (coordTransform (clearedDisp 128 64 0).rotation (clearedDisp 128 64 0).width
        (clearedDisp 128 64 0).height 5 9).1
      + (clearedDisp 128 64 0).width
        * ((coordTransform (clearedDisp 128 64 0).rotation (clearedDisp 128 64 0).width
            (clearedDisp 128 64 0).height 5 9).2 >>> 3)
      < (clearedDisp 128 64 0).bufsize :=
  c10_pixel_index_in_bounds (clearedDisp 128 64 0) 5 9 (by decide) (by decide)
    (by decide) (by decide) (by decide) (by decide)
